import Mathlib

/-!
Verification development for the pico_lora SX1262 driver (src/my_sx1262.py).
Every chip-command function of the source writes one SPI frame: a byte list
whose first byte is the opcode.  We model the frame each function writes and
the ordered list of frames written by the composite operations (tx, rx) and by
the registered DIO1 edge handler dio_echo_irq, the latter as a function of the
bytes the chip returns on the query commands it issues.
-/

set_option linter.unusedVariables false

namespace PicoLora

/-- A single SPI exchange as written on the bus: byte list, first byte the opcode. -/
abbrev Frame := List Nat

namespace IRQ_BITS

/-- Bit constants of class IRQ_BITS in my_sx1262.py. -/
def TXDONE : Nat := 1 <<< 0

def RXDONE : Nat := 1 <<< 1

def PREAMBLE_DETECTED : Nat := 1 <<< 2

def SYNC_WORD_VALID : Nat := 1 <<< 3

def HEADER_VALID : Nat := 1 <<< 4

def HEADER_ERR : Nat := 1 <<< 5

def CRC_ERR : Nat := 1 <<< 6

def CAD_DONE : Nat := 1 <<< 7

def CAD_DETECTED : Nat := 1 <<< 8

def TIMEOUT : Nat := 1 <<< 9

end IRQ_BITS

/-- Frame written by get_irq_status: bytearray(4) with buf[0] = 0x12. -/
def get_irq_status_frame : Frame := [0x12, 0, 0, 0]

/-- Frame written by clear_irq_status(mask): [0x02, mask high byte, mask low byte]. -/
def clear_irq_status_frame (mask : Nat) : Frame :=
  [0x02, (mask >>> 8) &&& 0xff, mask &&& 0xff]

/-- Frame written by GetRxBufferStatus: bytearray(4) with buf[0] = 0x13. -/
def GetRxBufferStatus_frame : Frame := [0x13, 0, 0, 0]

/-- Frame written by read_buffer(offset, num): bytearray(3 + num) with
buff[0] = 0x1e and buff[1] = offset, the remaining num + 1 bytes zero. -/
def read_buffer_cmd_frame (offset num : Nat) : Frame :=
  0x1e :: offset :: List.replicate (num + 1) 0

/-- Frame written by set_standby(mode): [0x80, mode]. -/
def set_standby_frame (mode : Nat) : Frame := [0x80, mode]

/-- Frame written by set_buffer_base_addr: [0x8f, 0, 128] (tx base 0, rx base 128). -/
def set_buffer_base_addr_frame : Frame := [0x8f, 0, 128]

/-- Frame written by write_buffer(offset, data): 0x0e, offset, then the data bytes. -/
def write_buffer_frame (offset : Nat) (data : List Nat) : Frame :=
  0x0e :: offset :: data

/-- Frame written by set_modulation_params: bytearray(9), opcode 0x8b,
SF byte 0x0c, BW byte 0x4, CR byte 0x04, low data rate optimize 1. -/
def set_modulation_params_frame : Frame := [0x8b, 0x0c, 0x4, 0x04, 1, 0, 0, 0, 0]

/-- Frame written by set_packet_params(payload_size): bytearray(10), opcode 0x8c,
byte 2 = 0xe (preamble length), byte 3 = 0 (variable length), byte 4 = payload_size,
byte 5 = 1 (crc on), byte 6 = 0 (standard iq); the untouched bytes stay zero. -/
def set_packet_params_frame (payload_size : Nat) : Frame :=
  [0x8c, 0, 0xe, 0x0, payload_size, 0x1, 0x0, 0, 0, 0]

/-- Frame written by set_dio_irq_params(mask): bytearray(9), opcode 0x08, the mask
big-endian in bytes 1 and 2 and again in bytes 3 and 4 (route to DIO1), rest zero. -/
def set_dio_irq_params_frame (mask : Nat) : Frame :=
  [0x08, (mask >>> 8) &&& 0xff, mask &&& 0xff, (mask >>> 8) &&& 0xff, mask &&& 0xff,
   0, 0, 0, 0]

/-- Frame written by set_tx(timeout): bytearray(4) with buff[0] = 0x83 and nothing
else assigned; the source comment reads Timeout not implemented. -/
def set_tx_frame (timeout : ℚ) : Frame := [0x83, 0, 0, 0]

/-- Register value computed by set_rf_freq: Python int(freq * 33554432 / 32000000).
For a nonnegative integer freq the source truncates the float quotient toward zero;
modelled as exact floor division on Nat (the float quotient of the inputs appearing
in the theorems below is well clear of the next integer, so the floor agrees). -/
def rfFreqReg (freq : Nat) : Nat := freq * 33554432 / 32000000

/-- Frame written by set_rf_freq(freq): opcode 0x86 then the register value
big-endian in 4 bytes. -/
def set_rf_freq_frame (freq : Nat) : Frame :=
  [0x86, (rfFreqReg freq >>> 24) &&& 0xff, (rfFreqReg freq >>> 16) &&& 0xff,
   (rfFreqReg freq >>> 8) &&& 0xff, rfFreqReg freq &&& 0xff]

/-- Register value computed by set_rx: Python int(timeout_sec / 15.625e-6), where
15.625e-6 is the rational 15625 / 1000000000 = 1 / 64000.  For nonnegative
timeout_sec the truncation toward zero is the floor. -/
def rxTimeoutReg (timeout_sec : ℚ) : Nat :=
  (Rat.floor (timeout_sec / (15625 / 1000000000))).toNat

/-- Frame written by set_rx(timeout_sec): opcode 0x82 then the register value
big-endian in 3 bytes. -/
def set_rx_frame (timeout_sec : ℚ) : Frame :=
  [0x82, (rxTimeoutReg timeout_sec >>> 16) &&& 0xff,
   (rxTimeoutReg timeout_sec >>> 8) &&& 0xff, rxTimeoutReg timeout_sec &&& 0xff]

/-- SPI frames written by tx(payload) of my_sx1262.py, in order: buffer base
addresses, payload write at offset 0, modulation params, packet params sized to
the payload, DIO/IRQ mask 0x203, TX arm. -/
def tx_trace (payload : List Nat) : List Frame :=
  [set_buffer_base_addr_frame,
   write_buffer_frame 0 payload,
   set_modulation_params_frame,
   set_packet_params_frame payload.length,
   set_dio_irq_params_frame 0x203,
   set_tx_frame 0]

/-- SPI frames written by rx(timeout) of my_sx1262.py, in order (the parameter
default in the source is 30): buffer base addresses, modulation params, packet
params with max rx length 50, DIO/IRQ mask RXDONE or TIMEOUT or HEADER_ERR,
RX arm with the timeout. -/
def rx_trace (timeout : ℚ) : List Frame :=
  [set_buffer_base_addr_frame,
   set_modulation_params_frame,
   set_packet_params_frame 50,
   set_dio_irq_params_frame (IRQ_BITS.RXDONE ||| IRQ_BITS.TIMEOUT ||| IRQ_BITS.HEADER_ERR),
   set_rx_frame timeout]

/-- Bytes the chip returns on the query commands dio_echo_irq issues.  tmp1 and
tmp2 are bytes 1 and 2 of the get_irq_status reply, i.e. IRQ bits 15..8 and
7..0 (the source indexes the reply as tmp[1] and tmp[2]); rxbuf1 and rxbuf2 are
bytes 1 and 2 of the GetRxBufferStatus reply, i.e. PayloadLengthRx and
RxStartBufferPointer (indexed buf[1] and buf[2]); mem is the byte of chip buffer
memory at each offset. -/
structure Chip where
  tmp1 : Nat
  tmp2 : Nat
  rxbuf1 : Nat
  rxbuf2 : Nat
  mem : Nat → Nat

/-- Data bytes returned by read_buffer(offset, num): the reply minus its 3 header
bytes, exactly num bytes of buffer memory starting at offset. -/
def read_buffer_result (mem : Nat → Nat) (offset num : Nat) : List Nat :=
  (List.range num).map fun i => mem (offset + i)

/-- SPI frames written by one invocation of dio_echo_irq, the handler registered
on the DIO1 rising edge, as a function of the chip replies.  The source reads the
IRQ status, clears mask 0x203, then branches: rxdone if tmp[2] and 0x2 is set
(buffer status read, buffer read at the reported offset and length, standby,
retransmit of the received payload), elif txdone if tmp[2] and 0x1 is set
(re-enter rx mode), elif timeout if tmp[1] and 0x2 is set (re-enter rx mode).
led_blink, print and time.sleep touch no SPI bus and are not modelled. -/
def dio_echo_irq_trace (c : Chip) : List Frame :=
  get_irq_status_frame :: clear_irq_status_frame 0x203 ::
    (if c.tmp2 &&& 0x2 = 0x2 then
      GetRxBufferStatus_frame ::
        read_buffer_cmd_frame c.rxbuf2 c.rxbuf1 ::
          set_standby_frame 0 ::
            tx_trace (read_buffer_result c.mem c.rxbuf2 c.rxbuf1)
    else if c.tmp2 &&& 0x1 = 0x1 then
      rx_trace 30
    else if c.tmp1 &&& 0x2 = 0x2 then
      rx_trace 30
    else [])

/-- Fuel-indexed model of wait_not_busy, the source loop
while pin_busy.value() == 1: time.sleep(.1).  busy k is the busy line at the
k-th poll; some () means the loop exited within the given number of polls,
none means it is still spinning after all of them. -/
def wait_not_busy_fuel (busy : Nat → Bool) : Nat → Nat → Option Unit
  | 0, _ => none
  | fuel + 1, k => if busy k then wait_not_busy_fuel busy fuel (k + 1) else some ()

/-- Big-endian 4-byte encoding, used to state the spec claims about register frames. -/
def beBytes4 (n : Nat) : List Nat :=
  [(n >>> 24) &&& 0xff, (n >>> 16) &&& 0xff, (n >>> 8) &&& 0xff, n &&& 0xff]

/-- Big-endian 3-byte encoding, used to state the spec claims about the RX timeout. -/
def beBytes3 (n : Nat) : List Nat :=
  [(n >>> 16) &&& 0xff, (n >>> 8) &&& 0xff, n &&& 0xff]

/-- Round half up of a / b on Nat: the rounding the spec claims for the
frequency register value. -/
def roundNatDiv (a b : Nat) : Nat := (2 * a + b) / (2 * b)

/-- RX timeout register value the spec claims: round(timeout_sec / 15.625e-6),
rounding half up. -/
def roundRxTimeoutReg (timeout_sec : ℚ) : Nat :=
  (Rat.floor (timeout_sec / (15625 / 1000000000) + 1 / 2)).toNat

/-- Value of a big-endian 4-byte list. -/
def beVal4 : List Nat → Nat
  | [b0, b1, b2, b3] => ((b0 * 256 + b1) * 256 + b2) * 256 + b3
  | _ => 0

/-- Modelled from the spec: decodeFrequency(bytes) = register value * 32_000_000
divided by 2^25, in Hz.  The source has no frequency decoder; this is the
formula the spec gives for the round-trip property. -/
def decodeFrequency (bs : List Nat) : ℚ := (beVal4 bs : ℚ) * 32000000 / 33554432

/-- True when every frame of a trace is a get-IRQ-status (opcode 0x12) or
clear-IRQ-status (opcode 0x02) command: the only SPI commands the spec allows an
edge handler to perform. -/
def onlyIrqStatusFrames (tr : List Frame) : Bool :=
  tr.all fun fr => fr.head? == some 0x12 || fr.head? == some 0x02

lemma and_255_eq_mod (x : Nat) : x &&& 0xff = x % 256 := by
  have h : (0xff : Nat) = 2 ^ 8 - 1 := by norm_num
  have h2 : (256 : Nat) = 2 ^ 8 := by norm_num
  rw [h, h2, Nat.and_pow_two_sub_one_eq_mod]

lemma shr24_eq (x : Nat) : x >>> 24 = x / 16777216 := by
  rw [Nat.shiftRight_eq_div_pow]

lemma shr16_eq (x : Nat) : x >>> 16 = x / 65536 := by
  rw [Nat.shiftRight_eq_div_pow]

lemma shr8_eq (x : Nat) : x >>> 8 = x / 256 := by
  rw [Nat.shiftRight_eq_div_pow]

lemma beVal4_beBytes4 (n : Nat) (h : n < 4294967296) : beVal4 (beBytes4 n) = n := by
  simp only [beBytes4, beVal4, and_255_eq_mod, shr24_eq, shr16_eq, shr8_eq]
  omega

lemma ratFloor_eq_floor (q : ℚ) : Rat.floor q = ⌊q⌋ := by
  rw [Rat.floor_def', Rat.floor_def]

lemma rxTimeoutReg_thirty : rxTimeoutReg 30 = 1920000 := by
  norm_num [rxTimeoutReg, ratFloor_eq_floor]
  decide

lemma echo_trace_rxdone (c : Chip) (h : c.tmp2 &&& 0x2 = 0x2) :
    dio_echo_irq_trace c =
      get_irq_status_frame :: clear_irq_status_frame 0x203 ::
        GetRxBufferStatus_frame :: read_buffer_cmd_frame c.rxbuf2 c.rxbuf1 ::
          set_standby_frame 0 :: tx_trace (read_buffer_result c.mem c.rxbuf2 c.rxbuf1) := by
  unfold dio_echo_irq_trace
  rw [if_pos h]

lemma echo_trace_txdone (c : Chip) (h1 : c.tmp2 &&& 0x2 ≠ 0x2) (h2 : c.tmp2 &&& 0x1 = 0x1) :
    dio_echo_irq_trace c =
      get_irq_status_frame :: clear_irq_status_frame 0x203 :: rx_trace 30 := by
  unfold dio_echo_irq_trace
  rw [if_neg h1, if_pos h2]

lemma echo_trace_timeout (c : Chip) (h1 : c.tmp2 &&& 0x2 ≠ 0x2) (h2 : c.tmp2 &&& 0x1 ≠ 0x1)
    (h3 : c.tmp1 &&& 0x2 = 0x2) :
    dio_echo_irq_trace c =
      get_irq_status_frame :: clear_irq_status_frame 0x203 :: rx_trace 30 := by
  unfold dio_echo_irq_trace
  rw [if_neg h1, if_neg h2, if_pos h3]

/-- C1: whenever the RxDone bit (bit 1 of the low IRQ byte) is set in the decoded
IRQ status, dio_echo_irq executes exactly the RxDone branch and its SPI trace is
independent of the TxDone bit; and in general the branches are evaluated in the
order RxDone, then TxDone, then Timeout. -/
theorem c1_echo_irq_rxdone_priority (c : Chip) :
    (c.tmp2 &&& 0x2 = 0x2 →
      dio_echo_irq_trace c =
        get_irq_status_frame :: clear_irq_status_frame 0x203 ::
          GetRxBufferStatus_frame :: read_buffer_cmd_frame c.rxbuf2 c.rxbuf1 ::
            set_standby_frame 0 :: tx_trace (read_buffer_result c.mem c.rxbuf2 c.rxbuf1)) ∧
    (c.tmp2 &&& 0x2 ≠ 0x2 → c.tmp2 &&& 0x1 = 0x1 →
      dio_echo_irq_trace c =
        get_irq_status_frame :: clear_irq_status_frame 0x203 :: rx_trace 30) ∧
    (c.tmp2 &&& 0x2 ≠ 0x2 → c.tmp2 &&& 0x1 ≠ 0x1 → c.tmp1 &&& 0x2 = 0x2 →
      dio_echo_irq_trace c =
        get_irq_status_frame :: clear_irq_status_frame 0x203 :: rx_trace 30) :=
  ⟨echo_trace_rxdone c, echo_trace_txdone c, echo_trace_timeout c⟩

/-- Witness for C1 at a chip whose IRQ status has both RxDone and TxDone set
(tmp2 = 3): the handler takes the RxDone branch. -/
theorem c1_echo_irq_rxdone_priority_witness :
    ((⟨0, 3, 5, 7, fun _ => 0⟩ : Chip).tmp2 &&& 0x2 = 0x2) ∧
      dio_echo_irq_trace (⟨0, 3, 5, 7, fun _ => 0⟩ : Chip) =
        get_irq_status_frame :: clear_irq_status_frame 0x203 ::
          GetRxBufferStatus_frame :: read_buffer_cmd_frame 7 5 ::
            set_standby_frame 0 :: tx_trace (read_buffer_result (fun _ => 0) 7 5) :=
  ⟨by decide, (c1_echo_irq_rxdone_priority ⟨0, 3, 5, 7, fun _ => 0⟩).1 (by decide)⟩

/-- C2: on a busy line that never deasserts, wait_not_busy never exits its
polling loop, whatever the number of polls and wherever it starts.  The source
has no bound and no BusTimeout fault at all, so the claimed bounded failure is
met by no run: the loop spins forever. -/
theorem c2_wait_not_busy_spins_forever (fuel k : Nat) :
    wait_not_busy_fuel (fun _ => true) fuel k = none := by
  induction fuel generalizing k with
  | zero => rfl
  | succ n ih => simpa [wait_not_busy_fuel] using ih (k + 1)

/-- C3 fails as stated: at freq = 902300000 Hz (the frequency the source itself
uses) the exact register value is 946130124.8; the source truncates it to
946130124 while rounding gives 946130125, so the transmitted frame differs from
the claimed one in its last byte (0xcc against 0xcd). -/
theorem c3_set_rf_freq_round_counterexample :
    set_rf_freq_frame 902300000 ≠
      0x86 :: beBytes4 (roundNatDiv (902300000 * 33554432) 32000000) := by
  decide

/-- C3 amended: for every integer frequency, set_rf_freq transmits exactly a
5-byte frame whose first byte is the opcode 0x86 and whose remaining 4 bytes are
the big-endian encoding of the truncated register value
floor(freq * 2^25 / 32000000) — truncation by int(), not rounding. -/
theorem c3_set_rf_freq_frame_layout (freq : Nat) :
    set_rf_freq_frame freq = 0x86 :: beBytes4 (freq * 33554432 / 32000000) ∧
      (set_rf_freq_frame freq).length = 5 :=
  ⟨rfl, rfl⟩

/-- C4 fails as stated: transmitting the 2-byte payload [104, 105] arms the IRQ
mask 0x203, which contains the RxDone bit as well, not exactly TxDone and
Timeout. -/
theorem c4_tx_irq_mask_counterexample :
    (tx_trace [104, 105])[4]? = some (set_dio_irq_params_frame 0x203) ∧
      set_dio_irq_params_frame 0x203 ≠
        set_dio_irq_params_frame (IRQ_BITS.TXDONE ||| IRQ_BITS.TIMEOUT) ∧
      0x203 &&& IRQ_BITS.RXDONE ≠ 0 := by
  decide

/-- C4 amended: for every payload, tx issues in order the buffer base address
command, the payload write into the TX partition, the modulation parameters, the
packet parameters with the payload-size field equal to the payload length, the
DIO/IRQ arm of TxDone, RxDone and Timeout (mask 0x203, not only TxDone and
Timeout), and finally the TX-arm command with opcode 0x83. -/
theorem c4_tx_command_order (payload : List Nat) :
    tx_trace payload =
      [set_buffer_base_addr_frame,
       write_buffer_frame 0 payload,
       set_modulation_params_frame,
       set_packet_params_frame payload.length,
       set_dio_irq_params_frame (IRQ_BITS.TXDONE ||| IRQ_BITS.RXDONE ||| IRQ_BITS.TIMEOUT),
       set_tx_frame 0] ∧
      (set_packet_params_frame payload.length)[4]? = some payload.length ∧
      (set_tx_frame 0).head? = some 0x83 ∧
      (write_buffer_frame 0 payload).drop 2 = payload := by
  have hm : (IRQ_BITS.TXDONE ||| IRQ_BITS.RXDONE ||| IRQ_BITS.TIMEOUT) = 0x203 := by decide
  refine ⟨?_, rfl, rfl, rfl⟩
  simp only [tx_trace, hm]

/-- C5: on an RxDone event, dio_echo_irq first reads the RX buffer status reply
and then reads from the buffer partition exactly the chip-reported payload
length bytes starting at the chip-reported start offset: the buffer status query
immediately precedes the read in the trace, the read command addresses offset
rxbuf2 with rxbuf1 data bytes, and the returned payload has length exactly
rxbuf1, so the RX read never exceeds the chip-reported received length. -/
theorem c5_echo_irq_rx_read_bounded (c : Chip) (hrx : c.tmp2 &&& 0x2 = 0x2) :
    dio_echo_irq_trace c =
      get_irq_status_frame :: clear_irq_status_frame 0x203 ::
        GetRxBufferStatus_frame :: read_buffer_cmd_frame c.rxbuf2 c.rxbuf1 ::
          set_standby_frame 0 :: tx_trace (read_buffer_result c.mem c.rxbuf2 c.rxbuf1) ∧
      (read_buffer_result c.mem c.rxbuf2 c.rxbuf1).length = c.rxbuf1 ∧
      (read_buffer_cmd_frame c.rxbuf2 c.rxbuf1).length = 3 + c.rxbuf1 := by
  refine ⟨echo_trace_rxdone c hrx, by simp [read_buffer_result], ?_⟩
  simp only [read_buffer_cmd_frame, List.length_cons, List.length_replicate]
  omega

/-- Witness for C5 at a chip reporting payload length 5 at start offset 9. -/
theorem c5_echo_irq_rx_read_bounded_witness :
    ((⟨0, 2, 5, 9, fun i => i⟩ : Chip).tmp2 &&& 0x2 = 0x2) ∧
      (dio_echo_irq_trace (⟨0, 2, 5, 9, fun i => i⟩ : Chip) =
        get_irq_status_frame :: clear_irq_status_frame 0x203 ::
          GetRxBufferStatus_frame :: read_buffer_cmd_frame 9 5 ::
            set_standby_frame 0 :: tx_trace (read_buffer_result (fun i => i) 9 5) ∧
        (read_buffer_result (fun i => i) 9 5).length = 5 ∧
        (read_buffer_cmd_frame 9 5).length = 3 + 5) :=
  ⟨by decide, c5_echo_irq_rx_read_bounded ⟨0, 2, 5, 9, fun i => i⟩ (by decide)⟩

/-- C6 fails as stated: at a chip reply with the RxDone bit set, the edge
handler dio_echo_irq writes SPI frames other than get-IRQ-status and
clear-IRQ-status within the same invocation (the RX buffer status read with
opcode 0x13, the buffer read, standby and the whole retransmit chain). -/
theorem c6_edge_handler_counterexample :
    onlyIrqStatusFrames (dio_echo_irq_trace ⟨0, 2, 5, 0, fun _ => 0⟩) = false := by
  decide

/-- C6 amended: the first two SPI frames of every dio_echo_irq invocation do
read and then clear the interrupt status register, but on an RxDone event the
handler goes on to issue the remaining protocol exchanges (buffer status read,
buffer read, standby, retransmit) in the same invocation instead of deferring
them to a non-interrupt context. -/
theorem c6_edge_handler_amended (c : Chip) :
    (dio_echo_irq_trace c).take 2 =
      [get_irq_status_frame, clear_irq_status_frame 0x203] ∧
      (c.tmp2 &&& 0x2 = 0x2 → onlyIrqStatusFrames (dio_echo_irq_trace c) = false) := by
  constructor
  · rfl
  · intro h
    rw [echo_trace_rxdone c h]
    simp [onlyIrqStatusFrames, get_irq_status_frame, clear_irq_status_frame,
          GetRxBufferStatus_frame]

/-- Witness for C6 amended at a chip reply with the RxDone bit set. -/
theorem c6_edge_handler_amended_witness :
    ((⟨0, 2, 5, 0, fun _ => 1⟩ : Chip).tmp2 &&& 0x2 = 0x2) ∧
      onlyIrqStatusFrames (dio_echo_irq_trace (⟨0, 2, 5, 0, fun _ => 1⟩ : Chip)) = false :=
  ⟨by decide, (c6_edge_handler_amended ⟨0, 2, 5, 0, fun _ => 1⟩).2 (by decide)⟩

/-- C7 fails as stated: a Timeout interrupt (IRQ status high byte 0x2, low byte
0) makes dio_echo_irq unconditionally clear the latch and re-issue the whole RX
chain ending in the RX-arm command, so even with a retry budget of zero the
first over-budget Timeout still re-arms receive instead of transitioning to a
fault; the handler keeps no count and the source has no fault state at all. -/
theorem c7_timeout_budget_counterexample :
    dio_echo_irq_trace ⟨2, 0, 0, 0, fun _ => 0⟩ =
      get_irq_status_frame :: clear_irq_status_frame 0x203 :: rx_trace 30 ∧
      (rx_trace 30).getLast? = some (set_rx_frame 30) ∧
      (set_rx_frame 30).head? = some 0x82 :=
  ⟨rfl, rfl, rfl⟩

/-- C7 amended: on every Timeout interrupt (RxDone and TxDone bits clear,
Timeout bit set) the handler clears the IRQ latch and unconditionally re-issues
the full RX configuration ending in the RX-arm command; there is no retry
budget and no Fault(Timeout) transition, and the behaviour does not depend on
how many consecutive Timeout events came before. -/
theorem c7_timeout_always_rearms (c : Chip) (h1 : c.tmp2 &&& 0x2 ≠ 0x2)
    (h2 : c.tmp2 &&& 0x1 ≠ 0x1) (h3 : c.tmp1 &&& 0x2 = 0x2) :
    dio_echo_irq_trace c =
      get_irq_status_frame :: clear_irq_status_frame 0x203 :: rx_trace 30 ∧
      (rx_trace 30).getLast? = some (set_rx_frame 30) :=
  ⟨echo_trace_timeout c h1 h2 h3, rfl⟩

/-- Witness for C7 amended at a chip reply with only the Timeout bit set. -/
theorem c7_timeout_always_rearms_witness :
    ((⟨2, 0, 0, 0, fun _ => 3⟩ : Chip).tmp2 &&& 0x2 ≠ 0x2 ∧
        (⟨2, 0, 0, 0, fun _ => 3⟩ : Chip).tmp2 &&& 0x1 ≠ 0x1 ∧
        (⟨2, 0, 0, 0, fun _ => 3⟩ : Chip).tmp1 &&& 0x2 = 0x2) ∧
      (dio_echo_irq_trace (⟨2, 0, 0, 0, fun _ => 3⟩ : Chip) =
        get_irq_status_frame :: clear_irq_status_frame 0x203 :: rx_trace 30 ∧
        (rx_trace 30).getLast? = some (set_rx_frame 30)) :=
  ⟨⟨by decide, by decide, by decide⟩,
    c7_timeout_always_rearms ⟨2, 0, 0, 0, fun _ => 3⟩ (by decide) (by decide) (by decide)⟩

/-- C8 fails as stated: at timeout_sec = 1/100000 s the exact register value is
0.64; the source truncates it to 0 while rounding gives 1, so the transmitted
frame differs from the claimed one in its last byte. -/
theorem c8_set_rx_round_counterexample :
    set_rx_frame (1 / 100000) = [0x82, 0, 0, 0] ∧
      0x82 :: beBytes3 (roundRxTimeoutReg (1 / 100000)) = [0x82, 0, 0, 1] ∧
      set_rx_frame (1 / 100000) ≠ 0x82 :: beBytes3 (roundRxTimeoutReg (1 / 100000)) := by
  have h0 : rxTimeoutReg (1 / 100000) = 0 := by
    norm_num [rxTimeoutReg, ratFloor_eq_floor]
  have h1 : roundRxTimeoutReg (1 / 100000) = 1 := by
    norm_num [roundRxTimeoutReg, ratFloor_eq_floor]
  refine ⟨?_, ?_, ?_⟩ <;> (simp only [set_rx_frame, beBytes3, h0, h1]; decide)

/-- C8 amended: for every nonnegative rational timeout_sec, set_rx transmits
exactly a 4-byte frame whose first byte is the opcode 0x82 and whose remaining
3 bytes are the big-endian encoding of the truncated register value
floor(timeout_sec / 15.625e-6) = floor(timeout_sec * 64000) — truncation by
int(), not rounding; the encoded value 0xFFFFFF selects continuous receive per
the chip documentation. -/
theorem c8_set_rx_frame_layout (t : ℚ) (ht : 0 ≤ t) :
    set_rx_frame t = 0x82 :: beBytes3 ((Rat.floor (t * 64000)).toNat) ∧
      (set_rx_frame t).length = 4 := by
  have hinv : ((15625 : ℚ) / 1000000000)⁻¹ = 64000 := by norm_num
  have he : t / (15625 / 1000000000) = t * 64000 := by
    rw [div_eq_mul_inv, hinv]
  refine ⟨?_, rfl⟩
  unfold set_rx_frame rxTimeoutReg beBytes3
  rw [he]

/-- Witness for C8 amended at timeout_sec = 30 (the rx default of the source). -/
theorem c8_set_rx_frame_layout_witness :
    (0 : ℚ) ≤ 30 ∧
      (set_rx_frame 30 = 0x82 :: beBytes3 ((Rat.floor ((30 : ℚ) * 64000)).toNat) ∧
        (set_rx_frame 30).length = 4) :=
  ⟨by norm_num, c8_set_rx_frame_layout 30 (by norm_num)⟩

/-- C9: for every integer frequency up to 960 MHz (the chip-supported range lies
below this), encoding with the register value that set_rf_freq computes and
decoding with register * 32000000 / 2^25 recovers the frequency to within one
register LSB, 32000000 / 2^25 Hz. -/
theorem c9_freq_roundtrip (freq : Nat) (h : freq ≤ 960000000) :
    |(freq : ℚ) - decodeFrequency ((set_rf_freq_frame freq).drop 1)| <
      32000000 / 33554432 := by
  have hdrop : (set_rf_freq_frame freq).drop 1 = beBytes4 (rfFreqReg freq) := rfl
  have hn32 : rfFreqReg freq < 4294967296 := by
    have h1 : rfFreqReg freq ≤ 960000000 * 33554432 / 32000000 :=
      Nat.div_le_div_right (Nat.mul_le_mul_right _ h)
    omega
  rw [hdrop, decodeFrequency, beVal4_beBytes4 _ hn32]
  have hdm : 32000000 * rfFreqReg freq + freq * 33554432 % 32000000 = freq * 33554432 :=
    Nat.div_add_mod (freq * 33554432) 32000000
  have hr : freq * 33554432 % 32000000 < 32000000 := Nat.mod_lt _ (by norm_num)
  have hq : (freq : ℚ) * 33554432 =
      32000000 * (rfFreqReg freq : ℚ) + ((freq * 33554432 % 32000000 : Nat) : ℚ) := by
    exact_mod_cast hdm.symm
  have hrq : ((freq * 33554432 % 32000000 : Nat) : ℚ) < 32000000 := by exact_mod_cast hr
  have key : (freq : ℚ) - (rfFreqReg freq : ℚ) * 32000000 / 33554432 =
      ((freq * 33554432 % 32000000 : Nat) : ℚ) / 33554432 := by
    field_simp
    linarith [hq]
  rw [key, abs_of_nonneg (by positivity)]
  rw [div_lt_div_iff₀ (by norm_num) (by norm_num)]
  have := mul_lt_mul_of_pos_right hrq (show (0 : ℚ) < 33554432 by norm_num)
  linarith [this]

/-- Witness for C9 at the source frequency 902300000 Hz. -/
theorem c9_freq_roundtrip_witness :
    (902300000 : Nat) ≤ 960000000 ∧
      |((902300000 : Nat) : ℚ) - decodeFrequency ((set_rf_freq_frame 902300000).drop 1)| <
        32000000 / 33554432 :=
  ⟨by norm_num, c9_freq_roundtrip 902300000 (by norm_num)⟩

/-- C10: set_tx transmits the identical 4-byte frame 0x83 00 00 00 for every
value of its timeout argument; the timeout parameter is accepted but never
encoded into the frame. -/
theorem c10_set_tx_timeout_ignored (timeout : ℚ) :
    set_tx_frame timeout = [0x83, 0, 0, 0] ∧ (set_tx_frame timeout).length = 4 :=
  ⟨rfl, rfl⟩

end PicoLora
